import Mathlib

/-!
Shallow embedding of the PMW3610 optical-sensor driver core
(`src/pmw3610.c`) for checking the natural-language specification.

Register writes over the SPI bus are modelled by an oracle of responses:
a `BusState` holds the list of error codes the next write calls will
return (an exhausted list means every further write succeeds) together
with the trace of `(address, value)` writes attempted so far.  Error
codes follow the C convention: `0` is success, a nonzero (negative)
value is an errno-style failure.
-/

/-- Modelled from the spec: `CLOCK_ENABLE_ADDR`, the SPI-clock request
register.  Its numeric value lives in the header `pmw3610.h`, which is
not part of the sources; no claim depends on the value. -/
def PMW3610_REG_SPI_CLK_ON_REQ : Nat := 0x41

/-- Modelled from the spec: the clock-enable command byte (value not in
the sources; no claim depends on it). -/
def PMW3610_SPI_CLOCK_CMD_ENABLE : Nat := 0xBA

/-- Modelled from the spec: the clock-disable command byte (value not in
the sources; no claim depends on it, beyond being distinct from data
bytes used in concrete counterexamples). -/
def PMW3610_SPI_CLOCK_CMD_DISABLE : Nat := 0xB5

/-- Modelled from the spec: the resolution-step register address (value
not in the sources; no claim depends on it). -/
def PMW3610_REG_RES_STEP : Nat := 0x85

/-- errno code for an invalid argument, as used by `-EINVAL` in the C. -/
def EINVAL : Int := 22

/-- errno code for an input/output failure, as used by `-EIO` in the C. -/
def EIO_CODE : Int := 5

/-- errno code for a busy device, as used by `-EBUSY` in the C. -/
def EBUSY : Int := 16

/-- The SPI bus model: `responses` are the error codes the successive
`pmw3610_write_reg` calls will observe (exhausted list = all further
writes succeed); `trace` records every write attempted, in order. -/
structure BusState where
  responses : List Int
  trace : List (Nat × Nat)
deriving DecidableEq

/-- `pmw3610_write_reg` (pmw3610.c:75): a single register write.  The
write is always attempted (recorded in the trace); its result is the
next oracle response. -/
def pmw3610_write_reg (addr val : Nat) (s : BusState) : Int × BusState :=
  match s.responses with
  | [] => (0, ⟨[], s.trace ++ [(addr, val)]⟩)
  | r :: rest => (r, ⟨rest, s.trace ++ [(addr, val)]⟩)

/-- `pmw3610_write` (pmw3610.c:83): the clocked write.  Clock-enable
write (result ignored), fixed delay (no bus effect), inner register
write; on inner failure the error is returned at once, otherwise the
clock-disable write is issued (result ignored) and 0 returned. -/
def pmw3610_write (reg val : Nat) (s : BusState) : Int × BusState :=
  let s1 := (pmw3610_write_reg PMW3610_REG_SPI_CLK_ON_REQ PMW3610_SPI_CLOCK_CMD_ENABLE s).2
  let r := pmw3610_write_reg reg val s1
  if r.1 ≠ 0 then r
  else
    (0, (pmw3610_write_reg PMW3610_REG_SPI_CLK_ON_REQ PMW3610_SPI_CLOCK_CMD_DISABLE r.2).2)

/-- The data-write loop of `set_cpi` (pmw3610.c:122): writes the
`(addr, data)` pairs in order, breaking at the first failure and
returning its error code (0 when every write succeeded). -/
def cpiBurstWrites : List (Nat × Nat) → BusState → Int × BusState
  | [], s => (0, s)
  | (a, d) :: rest, s =>
    let r := pmw3610_write_reg a d s
    if r.1 ≠ 0 then r else cpiBurstWrites rest r.2

/-- `set_cpi` (pmw3610.c:96).  The bounds `PMW3610_MIN_CPI` and
`PMW3610_MAX_CPI` live in the header absent from the sources, so they
are parameters here.  Out of range: `-EINVAL` with no bus access.
Otherwise: clock-enable, the three-write burst (latch 0xFF, the value
`cpi / 200`, latch 0x00) breaking at the first failure, then the
clock-disable write unconditionally; the loop's error is returned. -/
def set_cpi (minCpi maxCpi : Nat) (cpi : Nat) (s : BusState) : Int × BusState :=
  if cpi > maxCpi ∨ cpi < minCpi then (-EINVAL, s)
  else
    let value := cpi / 200
    let s1 := (pmw3610_write_reg PMW3610_REG_SPI_CLK_ON_REQ PMW3610_SPI_CLOCK_CMD_ENABLE s).2
    let r := cpiBurstWrites [(0x7F, 0xFF), (PMW3610_REG_RES_STEP, value), (0x7F, 0x00)] s1
    let s2 := (pmw3610_write_reg PMW3610_REG_SPI_CLK_ON_REQ PMW3610_SPI_CLOCK_CMD_DISABLE r.2).2
    if r.1 ≠ 0 then (r.1, s2) else (0, s2)

/-! ## Async initialization state machine (pmw3610.c:333) -/

/-- `ASYNC_INIT_STEP_COUNT` (pmw3610.c:28): number of init steps. -/
def ASYNC_INIT_STEP_COUNT : Nat := 4

/-- Modelled from the spec: `PMW3610_PRODUCT_ID`, the expected identity
byte; its value lives in the absent header, no claim depends on it. -/
def PMW3610_PRODUCT_ID : Nat := 0x3E

/-- The fields of `struct pixart_data` the init work item mutates
(pmw3610.c:333): the step counter, the recorded error and the ready
flag. -/
structure InitData where
  async_init_step : Nat
  err : Int
  ready : Bool
deriving DecidableEq

/-- `pmw3610_async_init_check_ob1` (pmw3610.c:241): read the
observation register (first oracle value); on bus error return it; if
the low nibble is not 0xF return `-EINVAL`; read the product id (second
oracle value); on bus error return it; on mismatch return `-EIO`. -/
def pmw3610_async_init_check_ob1 (obRead idRead : Except Int Nat) : Int :=
  match obRead with
  | .error e => e
  | .ok value =>
    if value &&& 0x0F ≠ 0x0F then -EINVAL
    else
      match idRead with
      | .error e => e
      | .ok pid => if pid ≠ PMW3610_PRODUCT_ID then -EIO_CODE else 0

/-- One run of the init work item `pmw3610_async_init` (pmw3610.c:333).
`stepFn i` is the result of step `i`'s function.  Returns the new data,
whether the next step was scheduled, and whether the interrupt line was
enabled during this run. -/
def pmw3610_async_init (stepFn : Nat → Int) (d : InitData) : InitData × Bool × Bool :=
  if stepFn d.async_init_step ≠ 0 then
    ({ d with err := stepFn d.async_init_step }, false, false)
  else if d.async_init_step + 1 = ASYNC_INIT_STEP_COUNT then
    (⟨d.async_init_step + 1, stepFn d.async_init_step, true⟩, false, true)
  else
    (⟨d.async_init_step + 1, stepFn d.async_init_step, d.ready⟩, true, false)

/-- The init work queue, starting from the zeroed `pixart_data` with the
first run scheduled by `pmw3610_init` (pmw3610.c:562): `runInitN n` is
the state after `n` opportunities to run, a run happening only while the
previous one scheduled a successor. -/
def runInitN (stepFn : Nat → Int) : Nat → InitData × Bool × Bool
  | 0 => (⟨0, 0, false⟩, true, false)
  | n + 1 =>
    let r := runInitN stepFn n
    if r.2.1 then pmw3610_async_init stepFn r.1 else r

/-! ## Motion report pipeline (pmw3610.c:377) -/

/-- The C bit-field trick `TOINT16(val, 12)` (pmw3610.c:413): truncate
to 12 bits and sign-extend from bit 11. -/
def toint16_12 (v : Nat) : Int :=
  if v % 4096 < 2048 then ((v % 4096 : Nat) : Int)
  else ((v % 4096 : Nat) : Int) - 4096

/-- The bytes of the motion burst packet used by `pmw3610_report_data`:
X low byte, Y low byte, the shared X/Y high byte, and the two shutter
bytes.  (The numeric offsets within the burst live in the absent
header; the fields stand for the named positions.) -/
structure Burst where
  x_l : Nat
  y_l : Nat
  xy_h : Nat
  shutter_h : Nat
  shutter_l : Nat
deriving DecidableEq

/-- X decode (pmw3610.c:415): low byte plus the high nibble of the
shared byte shifted into bits 8..11, as a 12-bit signed value. -/
def decode_x (b : Burst) : Int := toint16_12 (b.x_l + ((b.xy_h &&& 0xF0) <<< 4))

/-- Y decode (pmw3610.c:416): low byte plus the low nibble of the
shared byte shifted into bits 8..11, as a 12-bit signed value. -/
def decode_y (b : Burst) : Int := toint16_12 (b.y_l + ((b.xy_h &&& 0x0F) <<< 8))

/-- The compile-time configuration `pmw3610_report_data` is built with,
as runtime fields: the axis-transform flags, the minimum report
interval (`CONFIG_PMW3610_REPORT_INTERVAL_MIN`, gating enabled only
when positive), the smart-exposure flag, and the input codes of the
two axes from the device config. -/
structure ReportConfig where
  swap_xy : Bool
  invert_x : Bool
  invert_y : Bool
  report_interval_min : Int
  smart_algorithm : Bool
  x_input_code : Nat
  y_input_code : Nat
deriving DecidableEq

/-- The mutable state `pmw3610_report_data` touches: the ready flag,
the smart-exposure latch, the two accumulators (the C statics `dx`,
`dy`), and the two timestamps. -/
structure ReportState where
  ready : Bool
  sw_smart_flag : Bool
  dx : Int
  dy : Int
  last_smp_time : Int
  last_rpt_time : Int
deriving DecidableEq

/-- One `input_report` call (value plus the `sync` argument; `sync =
false` signals that more of this report follows). -/
structure InputEvent where
  code : Nat
  value : Int
  sync : Bool
deriving DecidableEq

/-- Everything one invocation of the report path produces: the returned
error code, the new state, the emitted input events, the register
writes issued (the smart-exposure writes to register 0x32), and the
`set_interrupt` calls made. -/
structure ReportOut where
  err : Int
  st : ReportState
  events : List InputEvent
  regWrites : List (Nat × Nat)
  irqActions : List Bool
deriving DecidableEq

/-- Zephyr `CLAMP(v, INT16_MIN, INT16_MAX)` as used at pmw3610.c:464. -/
def int16clamp (v : Int) : Int :=
  if v < -32768 then -32768 else if v > 32767 then 32767 else v

/-- The axis-transform stage (pmw3610.c:418-428): the swap block
exchanges the two values, then the two inversion blocks negate the
(possibly swapped) axes. -/
def pmw3610_transform (cfg : ReportConfig) (x y : Int) : Int × Int :=
  let x1 := if cfg.swap_xy then y else x
  let y1 := if cfg.swap_xy then x else y
  (if cfg.invert_x then -x1 else x1, if cfg.invert_y then -y1 else y1)

/-- The 9-bit shutter value (pmw3610.c:431): bit 0 of the high shutter
byte shifted into bit 8, plus the low shutter byte. -/
def shutter_val (b : Burst) : Nat := ((b.shutter_h &&& 0x01) <<< 8) + b.shutter_l

/-- The smart-exposure hysteresis block (pmw3610.c:430-441): yields
the new `sw_smart_flag` and the writes to register 0x32 issued.  The
second `if` tests the flag as updated by the first, exactly as in the
sequential C code. -/
def smart_step (cfg : ReportConfig) (flag : Bool) (shutter : Nat) :
    Bool × List (Nat × Nat) :=
  if cfg.smart_algorithm then
    let p1 : Bool × List (Nat × Nat) :=
      if flag ∧ shutter < 45 then (false, [(0x32, 0x00)]) else (flag, [])
    if p1.1 = false ∧ shutter > 45 then (true, p1.2 ++ [(0x32, 0x80)]) else p1
  else (flag, [])

/-- `pmw3610_report_data` (pmw3610.c:377), over the burst-read outcome
(`.error e` = the bus read failed with `e`) and the current uptime
`now`.  Mirrors the source order: ready check, burst read, 12-bit
decode, swap then invert, smart-exposure hysteresis, stale purge and
sample timestamp, accumulate, report-interval gate, clamp and emit. -/
def pmw3610_report_data (cfg : ReportConfig) (st : ReportState) (now : Int)
    (burst : Except Int Burst) : ReportOut :=
  if st.ready = false then ⟨-EBUSY, st, [], [], []⟩
  else
    match burst with
    | .error e => ⟨e, st, [], [], []⟩
    | .ok b =>
      let xy := pmw3610_transform cfg (decode_x b) (decode_y b)
      let smart := smart_step cfg st.sw_smart_flag (shutter_val b)
      let purged :=
        0 < cfg.report_interval_min ∧ cfg.report_interval_min ≤ now - st.last_smp_time
      let lsmp := if 0 < cfg.report_interval_min then now else st.last_smp_time
      let dx1 := (if purged then 0 else st.dx) + xy.1
      let dy1 := (if purged then 0 else st.dy) + xy.2
      if 0 < cfg.report_interval_min ∧ now - st.last_rpt_time < cfg.report_interval_min then
        ⟨0, ⟨st.ready, smart.1, dx1, dy1, lsmp, st.last_rpt_time⟩, [], smart.2, []⟩
      else
        let rx := int16clamp dx1
        let ry := int16clamp dy1
        if rx ≠ 0 ∨ ry ≠ 0 then
          let lrpt := if 0 < cfg.report_interval_min then now else st.last_rpt_time
          let evs := (if rx ≠ 0 then [⟨cfg.x_input_code, rx, decide (ry = 0)⟩] else [])
                  ++ (if ry ≠ 0 then [⟨cfg.y_input_code, ry, true⟩] else [])
          ⟨0, ⟨st.ready, smart.1, 0, 0, lsmp, lrpt⟩, evs, smart.2, []⟩
        else
          ⟨0, ⟨st.ready, smart.1, dx1, dy1, lsmp, st.last_rpt_time⟩, [], smart.2, []⟩

/-- `pmw3610_work_callback` (pmw3610.c:494): run the report path
(return value discarded) and then unconditionally enable the interrupt
line. -/
def pmw3610_work_callback (cfg : ReportConfig) (st : ReportState) (now : Int)
    (burst : Except Int Burst) : ReportOut :=
  let r := pmw3610_report_data cfg st now burst
  { r with irqActions := r.irqActions ++ [true] }

/-! ## Theorems -/

/-- C1 counterexample: when the inner register write of `pmw3610_write`
fails (oracle: enable succeeds, inner write returns -5), the caller
does receive the inner error, but the clock-disable write is NOT
performed — refuting the claim that the disable write happens even on
inner failure. -/
theorem C1_claim_counterexample :
    (pmw3610_write 0x10 0x05 ⟨[0, -5], []⟩).1 = -5 ∧
    (PMW3610_REG_SPI_CLK_ON_REQ, PMW3610_SPI_CLOCK_CMD_DISABLE) ∉
      (pmw3610_write 0x10 0x05 ⟨[0, -5], []⟩).2.trace := by
  decide

/-- C1 (amended): for every register and value, `pmw3610_write`
performs the clock-enable write, waits, and performs the inner write;
if the inner write fails its error is returned to the caller and the
clock-disable write is skipped; only when the inner write succeeds is
the clock-disable write performed and 0 returned. -/
theorem C1_write_clocked (reg val : Nat) (r0 r1 r2 : Int) (rest : List Int)
    (tr : List (Nat × Nat)) :
    (r1 ≠ 0 → pmw3610_write reg val ⟨r0 :: r1 :: r2 :: rest, tr⟩ =
      (r1, ⟨r2 :: rest,
            tr ++ [(PMW3610_REG_SPI_CLK_ON_REQ, PMW3610_SPI_CLOCK_CMD_ENABLE),
                   (reg, val)]⟩))
    ∧ (r1 = 0 → pmw3610_write reg val ⟨r0 :: r1 :: r2 :: rest, tr⟩ =
      (0, ⟨rest,
           tr ++ [(PMW3610_REG_SPI_CLK_ON_REQ, PMW3610_SPI_CLOCK_CMD_ENABLE),
                  (reg, val),
                  (PMW3610_REG_SPI_CLK_ON_REQ, PMW3610_SPI_CLOCK_CMD_DISABLE)]⟩)) := by
  constructor
  · intro h
    simp [pmw3610_write, pmw3610_write_reg, h]
  · intro h
    simp [pmw3610_write, pmw3610_write_reg, h]

/-- Witness for C1_write_clocked at a concrete failing inner write. -/
theorem C1_write_clocked_witness :
    pmw3610_write 3 4 ⟨[0, -5, 0], []⟩ =
      (-5, ⟨[0], [(PMW3610_REG_SPI_CLK_ON_REQ, PMW3610_SPI_CLOCK_CMD_ENABLE), (3, 4)]⟩) :=
  (C1_write_clocked 3 4 0 (-5) 0 [] []).1 (by decide)

/-- C4: for every CPI in `[minCpi, maxCpi]`, `set_cpi` writes the
register value `cpi / 200` (the middle write of the three-write burst)
and succeeds; for every CPI outside the range it returns `-EINVAL`
with the bus state untouched (no write issued). -/
theorem C4_set_cpi_range (minc maxc cIn cOut : Nat) (tr : List (Nat × Nat)) (s : BusState)
    (h1 : minc ≤ cIn) (h2 : cIn ≤ maxc) (h3 : cOut > maxc ∨ cOut < minc) :
    set_cpi minc maxc cIn ⟨[], tr⟩ =
      (0, ⟨[], tr ++ [(PMW3610_REG_SPI_CLK_ON_REQ, PMW3610_SPI_CLOCK_CMD_ENABLE),
                      (0x7F, 0xFF),
                      (PMW3610_REG_RES_STEP, cIn / 200),
                      (0x7F, 0x00),
                      (PMW3610_REG_SPI_CLK_ON_REQ, PMW3610_SPI_CLOCK_CMD_DISABLE)]⟩)
    ∧ set_cpi minc maxc cOut s = (-EINVAL, s) := by
  constructor
  · have hc : ¬(cIn > maxc ∨ cIn < minc) := by omega
    simp [set_cpi, hc, cpiBurstWrites, pmw3610_write_reg]
  · simp [set_cpi, h3]

/-- Witness for C4_set_cpi_range: CPI 600 in range [200, 3200] writes
register value 3; CPI 100 is rejected with no bus access. -/
theorem C4_set_cpi_range_witness :
    set_cpi 200 3200 600 ⟨[], []⟩ =
      (0, ⟨[], [(PMW3610_REG_SPI_CLK_ON_REQ, PMW3610_SPI_CLOCK_CMD_ENABLE),
                (0x7F, 0xFF),
                (PMW3610_REG_RES_STEP, 3),
                (0x7F, 0x00),
                (PMW3610_REG_SPI_CLK_ON_REQ, PMW3610_SPI_CLOCK_CMD_DISABLE)]⟩)
    ∧ set_cpi 200 3200 100 ⟨[], []⟩ = (-EINVAL, ⟨[], []⟩) :=
  C4_set_cpi_range 200 3200 600 100 [] ⟨[], []⟩ (by decide) (by decide)
    (Or.inr (by decide))

/-- C9: in `set_cpi`'s three-write burst under one clock-enable
bracket, a failure of the first, second or third payload write skips
the remaining payload writes, still issues the clock-disable write,
and returns the failing write's error. -/
theorem C9_cpi_burst_failure (minc maxc cpi : Nat) (e : Int) (tr : List (Nat × Nat))
    (h1 : minc ≤ cpi) (h2 : cpi ≤ maxc) (he : e ≠ 0) :
    set_cpi minc maxc cpi ⟨[0, e], tr⟩ =
      (e, ⟨[], tr ++ [(PMW3610_REG_SPI_CLK_ON_REQ, PMW3610_SPI_CLOCK_CMD_ENABLE),
                      (0x7F, 0xFF),
                      (PMW3610_REG_SPI_CLK_ON_REQ, PMW3610_SPI_CLOCK_CMD_DISABLE)]⟩)
    ∧ set_cpi minc maxc cpi ⟨[0, 0, e], tr⟩ =
      (e, ⟨[], tr ++ [(PMW3610_REG_SPI_CLK_ON_REQ, PMW3610_SPI_CLOCK_CMD_ENABLE),
                      (0x7F, 0xFF),
                      (PMW3610_REG_RES_STEP, cpi / 200),
                      (PMW3610_REG_SPI_CLK_ON_REQ, PMW3610_SPI_CLOCK_CMD_DISABLE)]⟩)
    ∧ set_cpi minc maxc cpi ⟨[0, 0, 0, e], tr⟩ =
      (e, ⟨[], tr ++ [(PMW3610_REG_SPI_CLK_ON_REQ, PMW3610_SPI_CLOCK_CMD_ENABLE),
                      (0x7F, 0xFF),
                      (PMW3610_REG_RES_STEP, cpi / 200),
                      (0x7F, 0x00),
                      (PMW3610_REG_SPI_CLK_ON_REQ, PMW3610_SPI_CLOCK_CMD_DISABLE)]⟩) := by
  have hc : ¬(cpi > maxc ∨ cpi < minc) := by omega
  refine ⟨?_, ?_, ?_⟩ <;>
    simp [set_cpi, hc, cpiBurstWrites, pmw3610_write_reg, he]

/-- Witness for C9_cpi_burst_failure: CPI 600 with the second payload
write failing with -7. -/
theorem C9_cpi_burst_failure_witness :
    set_cpi 200 3200 600 ⟨[0, 0, -7], []⟩ =
      (-7, ⟨[], [(PMW3610_REG_SPI_CLK_ON_REQ, PMW3610_SPI_CLOCK_CMD_ENABLE),
                 (0x7F, 0xFF),
                 (PMW3610_REG_RES_STEP, 3),
                 (PMW3610_REG_SPI_CLK_ON_REQ, PMW3610_SPI_CLOCK_CMD_DISABLE)]⟩) :=
  (C9_cpi_burst_failure 200 3200 600 (-7) [] (by decide) (by decide) (by decide)).2.1

/-- The inductive invariant of the init work queue: every step below
the counter succeeded, the counter never exceeds the step count, ready
implies the counter reached the step count, and a scheduled successor
implies the counter is still below the last step. -/
def InitInv (g : Nat → Int) (r : InitData × Bool × Bool) : Prop :=
  r.1.async_init_step ≤ 4
  ∧ (∀ i, i < r.1.async_init_step → g i = 0)
  ∧ (r.1.ready = true → r.1.async_init_step = 4)
  ∧ (r.2.1 = true → r.1.async_init_step ≤ 3)

lemma runInitN_succ (g : Nat → Int) (n : Nat) :
    runInitN g (n + 1) =
      if (runInitN g n).2.1 then pmw3610_async_init g (runInitN g n).1
      else runInitN g n := rfl

lemma init_inv_step (g : Nat → Int) (d : InitData)
    (h3 : d.async_init_step ≤ 3) (hpre : ∀ i, i < d.async_init_step → g i = 0)
    (hnr : d.ready = false) :
    InitInv g (pmw3610_async_init g d) := by
  unfold pmw3610_async_init InitInv
  split_ifs with he h44
  · exact ⟨by simpa using Nat.le_trans h3 (by omega), by simpa using hpre,
      by simp [hnr], by simp⟩
  · refine ⟨?_, ?_, ?_, by simp⟩
    · simp only [ASYNC_INIT_STEP_COUNT] at h44
      simp
      omega
    · intro i hi
      simp only at hi
      rcases Nat.lt_succ_iff_lt_or_eq.mp hi with h | h
      · exact hpre i h
      · subst h
        simpa using he
    · intro _
      simpa [ASYNC_INIT_STEP_COUNT] using h44
  · refine ⟨?_, ?_, by simp [hnr], ?_⟩
    · simp
      omega
    · intro i hi
      simp only at hi
      rcases Nat.lt_succ_iff_lt_or_eq.mp hi with h | h
      · exact hpre i h
      · subst h
        simpa using he
    · intro _
      simp only [ASYNC_INIT_STEP_COUNT] at h44
      simp
      omega

lemma init_inv_all (g : Nat → Int) (m : Nat) : InitInv g (runInitN g m) := by
  induction m with
  | zero =>
    refine ⟨by simp [runInitN], ?_, by simp [runInitN], by simp [runInitN]⟩
    intro i hi
    simp [runInitN] at hi
  | succ n ih =>
    obtain ⟨h4, hpre, hrdy, hsch⟩ := ih
    unfold runInitN
    by_cases hs : (runInitN g n).2.1
    · rw [if_pos hs]
      have h3 := hsch hs
      have hnr : (runInitN g n).1.ready = false := by
        cases hr : (runInitN g n).1.ready
        · rfl
        · exact absurd (hrdy hr) (by omega)
      exact init_inv_step g _ h3 hpre hnr
    · rw [if_neg hs]
      exact ⟨h4, hpre, hrdy, hsch⟩

lemma runInitN_ok (g : Nat → Int) (k : Nat) (hk : k ≤ 3)
    (h : ∀ i, i < k → g i = 0) :
    runInitN g k = (⟨k, 0, false⟩, true, false) := by
  induction k with
  | zero => rfl
  | succ n ih =>
    have h4 : ¬(n + 1 = ASYNC_INIT_STEP_COUNT) := by
      simp [ASYNC_INIT_STEP_COUNT]
      omega
    simp [runInitN, ih (by omega) (fun i hi => h i (Nat.lt_succ_of_lt hi)),
      pmw3610_async_init, h n (Nat.lt_succ_self n), h4]

lemma runInitN_stall (g : Nat → Int) (k : Nat) (hk : k ≤ 3)
    (hprev : ∀ i, i < k → g i = 0) (hfail : g k ≠ 0) (n : Nat) :
    runInitN g (k + 1 + n) =
      ({ async_init_step := k, err := g k, ready := false }, false, false) := by
  induction n with
  | zero =>
    show runInitN g (k + 1) = _
    simp [runInitN, runInitN_ok g k hk hprev, pmw3610_async_init, hfail]
  | succ n ih =>
    show runInitN g (k + 1 + n + 1) = _
    simp [runInitN, ih]

/-- C2: if a step of the async init fails, the error is recorded, the
step counter does not advance, no further step is scheduled and ready
stays false forever after; with all four steps succeeding, after the
fourth run the counter is 4, ready is true and the interrupt line was
enabled; ready can only ever become true when all four step functions
succeeded; and a self-test observation read with low nibble 0x0E fails
`pmw3610_async_init_check_ob1` with `-EINVAL`. -/
theorem C2_async_init_stall (stepFn stepOk : Nat → Int) (k v : Nat)
    (idRead : Except Int Nat)
    (hk : k < 4) (hfail : stepFn k ≠ 0) (hprev : ∀ i, i < k → stepFn i = 0)
    (hok : ∀ i, i < 4 → stepOk i = 0) (hv : v &&& 0x0F = 0x0E) :
    (∀ n, runInitN stepFn (k + 1 + n) =
      ({ async_init_step := k, err := stepFn k, ready := false }, false, false))
    ∧ runInitN stepOk 4 = (⟨4, 0, true⟩, false, true)
    ∧ (∀ (g : Nat → Int) (m : Nat),
        (runInitN g m).1.ready = true → ∀ i, i < 4 → g i = 0)
    ∧ pmw3610_async_init_check_ob1 (.ok v) idRead = -EINVAL := by
  refine ⟨runInitN_stall stepFn k (by omega) hprev hfail, ?_, ?_, ?_⟩
  · have h3 := runInitN_ok stepOk 3 (by omega) (fun i hi => hok i (by omega))
    show runInitN stepOk (3 + 1) = _
    rw [runInitN_succ, h3]
    simp [pmw3610_async_init, hok 3 (by omega), ASYNC_INIT_STEP_COUNT]
  · intro g m hr i hi
    obtain ⟨h4, hpre, hrdy, hsch⟩ := init_inv_all g m
    have := hrdy hr
    exact hpre i (by omega)
  · simp [pmw3610_async_init_check_ob1, hv]

/-- Witness for C2_async_init_stall: a step function failing at step 2
with -5 stalls at counter 2 forever; the all-success function reaches
ready; observation value 0x2E fails the self-test check. -/
theorem C2_async_init_stall_witness :
    runInitN (fun i => if i = 2 then -5 else 0) 10 =
      ({ async_init_step := 2, err := -5, ready := false }, false, false)
    ∧ runInitN (fun _ => 0) 4 = (⟨4, 0, true⟩, false, true)
    ∧ pmw3610_async_init_check_ob1 (.ok 0x2E) (.ok 0) = -EINVAL := by
  have h := C2_async_init_stall (fun i => if i = 2 then -5 else 0) (fun _ => 0) 2 0x2E
    (.ok 0) (by decide) (by decide) (by decide) (fun i _ => rfl) (by decide)
  exact ⟨h.1 7, h.2.1, h.2.2.2⟩

set_option maxRecDepth 4000 in
lemma nibble_hi : ∀ h, h < 256 → (h &&& 0xF0) <<< 4 = h / 16 * 256 := by decide

set_option maxRecDepth 4000 in
lemma nibble_lo : ∀ h, h < 256 → (h &&& 0x0F) <<< 8 = h % 16 * 256 := by decide

/-- C3: the motion decode takes each axis's 8-bit low byte plus the
relevant nibble of the shared high byte shifted into bits 8..11 and
sign-extends the resulting 12-bit value from bit 11; in particular raw
0xFFF decodes to -1, 0x001 to +1, 0x7FF to +2047 and 0x800 to -2048,
on either axis. -/
theorem C3_motion_decode (b : Burst) (hx : b.x_l < 256) (hy : b.y_l < 256)
    (hh : b.xy_h < 256) :
    (decode_x b =
      if b.x_l + b.xy_h / 16 * 256 < 2048 then ((b.x_l + b.xy_h / 16 * 256 : Nat) : Int)
      else ((b.x_l + b.xy_h / 16 * 256 : Nat) : Int) - 4096)
    ∧ (decode_y b =
      if b.y_l + b.xy_h % 16 * 256 < 2048 then ((b.y_l + b.xy_h % 16 * 256 : Nat) : Int)
      else ((b.y_l + b.xy_h % 16 * 256 : Nat) : Int) - 4096)
    ∧ decode_x ⟨0xFF, 0, 0xF0, 0, 0⟩ = -1
    ∧ decode_x ⟨0x01, 0, 0x00, 0, 0⟩ = 1
    ∧ decode_x ⟨0xFF, 0, 0x70, 0, 0⟩ = 2047
    ∧ decode_x ⟨0x00, 0, 0x80, 0, 0⟩ = -2048
    ∧ decode_y ⟨0, 0xFF, 0x0F, 0, 0⟩ = -1
    ∧ decode_y ⟨0, 0x01, 0x00, 0, 0⟩ = 1
    ∧ decode_y ⟨0, 0xFF, 0x07, 0, 0⟩ = 2047
    ∧ decode_y ⟨0, 0x00, 0x08, 0, 0⟩ = -2048 := by
  refine ⟨?_, ?_, by decide, by decide, by decide, by decide, by decide, by decide,
    by decide, by decide⟩
  · unfold decode_x toint16_12
    rw [nibble_hi b.xy_h hh]
    have hlt : b.x_l + b.xy_h / 16 * 256 < 4096 := by omega
    rw [Nat.mod_eq_of_lt hlt]
  · unfold decode_y toint16_12
    rw [nibble_lo b.xy_h hh]
    have hlt : b.y_l + b.xy_h % 16 * 256 < 4096 := by omega
    rw [Nat.mod_eq_of_lt hlt]

/-- Witness for C3_motion_decode at the concrete packet 0xFFF. -/
theorem C3_motion_decode_witness : decode_x ⟨0xFF, 0, 0xF0, 0, 0⟩ = -1 :=
  (C3_motion_decode ⟨0xFF, 0, 0xF0, 0, 0⟩ (by decide) (by decide) (by decide)).2.2.1

/-- C7: when the motion burst read fails, `pmw3610_report_data`
returns that error with the state unchanged, no emission and no
register write; the report function itself never touches the interrupt
line — the re-enable is the wrapping work callback's unconditional
final action. -/
theorem C7_burst_error (cfg : ReportConfig) (st : ReportState) (now e : Int)
    (hready : st.ready = true) :
    pmw3610_report_data cfg st now (.error e) = ⟨e, st, [], [], []⟩
    ∧ (∀ burst, (pmw3610_report_data cfg st now burst).irqActions = [])
    ∧ (pmw3610_work_callback cfg st now (.error e)).irqActions = [true] := by
  refine ⟨by simp [pmw3610_report_data, hready], ?_, ?_⟩
  · intro burst
    cases burst with
    | error e2 => simp [pmw3610_report_data, hready]
    | ok b =>
      simp only [pmw3610_report_data, hready]
      split_ifs <;> rfl
  · simp only [pmw3610_work_callback, pmw3610_report_data, hready]
    rfl

/-- Witness for C7_burst_error at a concrete error -5. -/
theorem C7_burst_error_witness :
    pmw3610_report_data ⟨false, false, false, 0, false, 0, 1⟩
        ⟨true, false, 3, 4, 0, 0⟩ 0 (.error (-5)) =
      ⟨-5, ⟨true, false, 3, 4, 0, 0⟩, [], [], []⟩ :=
  (C7_burst_error ⟨false, false, false, 0, false, 0, 1⟩ ⟨true, false, 3, 4, 0, 0⟩ 0 (-5)
    rfl).1

/-- A gated invocation (minimum interval configured, last report too
recent): no emission, the smart flag and writes from the hysteresis
block, accumulators updated with the (possibly purged) old value plus
the transformed sample, sample timestamp updated. -/
lemma report_gated (cfg : ReportConfig) (st : ReportState) (now : Int) (b : Burst)
    (hready : st.ready = true) (hI : 0 < cfg.report_interval_min)
    (hgate : now - st.last_rpt_time < cfg.report_interval_min) :
    pmw3610_report_data cfg st now (.ok b) =
      ⟨0, ⟨true, (smart_step cfg st.sw_smart_flag (shutter_val b)).1,
           (if cfg.report_interval_min ≤ now - st.last_smp_time then 0 else st.dx)
             + (pmw3610_transform cfg (decode_x b) (decode_y b)).1,
           (if cfg.report_interval_min ≤ now - st.last_smp_time then 0 else st.dy)
             + (pmw3610_transform cfg (decode_x b) (decode_y b)).2,
           now, st.last_rpt_time⟩,
       [], (smart_step cfg st.sw_smart_flag (shutter_val b)).2, []⟩ := by
  simp [pmw3610_report_data, hready, hI, hgate]

/-- C8: the axis transforms are applied swap-first: the decoded pair
is swapped when the swap flag is set, and the per-axis inversions are
then applied to the swapped axes (visible in the accumulators of a
gated invocation from a zeroed accumulator state). -/
theorem C8_swap_then_invert (sw ix iy : Bool) (b : Burst) (t0 : Int) (xc yc : Nat) :
    (pmw3610_report_data ⟨sw, ix, iy, 1, false, xc, yc⟩
        ⟨true, false, 0, 0, t0, t0⟩ t0 (.ok b)).st.dx =
      (if ix then -(if sw then decode_y b else decode_x b)
       else (if sw then decode_y b else decode_x b))
    ∧ (pmw3610_report_data ⟨sw, ix, iy, 1, false, xc, yc⟩
        ⟨true, false, 0, 0, t0, t0⟩ t0 (.ok b)).st.dy =
      (if iy then -(if sw then decode_x b else decode_y b)
       else (if sw then decode_x b else decode_y b)) := by
  have h := report_gated ⟨sw, ix, iy, 1, false, xc, yc⟩ ⟨true, false, 0, 0, t0, t0⟩ t0 b
    rfl (by norm_num) (by show t0 - t0 < 1; omega)
  rw [h]
  constructor <;> cases sw <;> cases ix <;> cases iy <;>
    simp [pmw3610_transform]

lemma report_st_ready (cfg : ReportConfig) (st : ReportState) (now : Int)
    (burst : Except Int Burst) :
    (pmw3610_report_data cfg st now burst).st.ready = st.ready := by
  by_cases hr : st.ready = false
  · simp [pmw3610_report_data, hr]
  · cases burst with
    | error e => simp [pmw3610_report_data, hr]
    | ok b =>
      simp only [pmw3610_report_data]
      rw [if_neg hr]
      split_ifs <;> simp

lemma report_st_smp (cfg : ReportConfig) (st : ReportState) (now : Int) (b : Burst)
    (hready : st.ready = true) (hI : 0 < cfg.report_interval_min) :
    (pmw3610_report_data cfg st now (.ok b)).st.last_smp_time = now := by
  simp only [pmw3610_report_data, hready]
  rw [if_neg (by simp)]
  split_ifs <;> simp [hI]

lemma report_purge_indep (cfg : ReportConfig) (st : ReportState) (now : Int) (b : Burst)
    (hready : st.ready = true) (hI : 0 < cfg.report_interval_min)
    (hgap : cfg.report_interval_min ≤ now - st.last_smp_time) :
    pmw3610_report_data cfg st now (.ok b)
      = pmw3610_report_data cfg { st with dx := 0, dy := 0 } now (.ok b) := by
  simp [pmw3610_report_data, hready, hI, hgap]

/-- C5: with a minimum report interval configured, an invocation whose
gap since the last sample reaches the interval behaves exactly as if
the accumulators were zero — the stale contribution is discarded
before the new decoded delta is added; in particular a sample at `t0`
followed by one at `t0 + 2I` with no intervening report contributes
only the second sample. -/
theorem C5_stale_purge (cfg : ReportConfig) (st : ReportState) (now t0 : Int)
    (b1 b2 : Burst)
    (hI : 0 < cfg.report_interval_min) (hready : st.ready = true)
    (hgap : cfg.report_interval_min ≤ now - st.last_smp_time) :
    pmw3610_report_data cfg st now (.ok b2)
      = pmw3610_report_data cfg { st with dx := 0, dy := 0 } now (.ok b2)
    ∧ pmw3610_report_data cfg (pmw3610_report_data cfg st t0 (.ok b1)).st
        (t0 + 2 * cfg.report_interval_min) (.ok b2)
      = pmw3610_report_data cfg
          { (pmw3610_report_data cfg st t0 (.ok b1)).st with dx := 0, dy := 0 }
          (t0 + 2 * cfg.report_interval_min) (.ok b2) := by
  refine ⟨report_purge_indep cfg st now b2 hready hI hgap, ?_⟩
  have h1 : (pmw3610_report_data cfg st t0 (.ok b1)).st.ready = true := by
    rw [report_st_ready]
    exact hready
  have h2 : (pmw3610_report_data cfg st t0 (.ok b1)).st.last_smp_time = t0 :=
    report_st_smp cfg st t0 b1 hready hI
  refine report_purge_indep cfg _ _ b2 h1 hI ?_
  rw [h2]
  omega

/-- Witness for C5_stale_purge: interval 10, a stale accumulator (5, 7)
from sample time 0 is irrelevant at time 20. -/
theorem C5_stale_purge_witness :
    pmw3610_report_data ⟨false, false, false, 10, false, 0, 1⟩
        ⟨true, false, 5, 7, 0, 100⟩ 20 (.ok ⟨1, 2, 0, 0, 0⟩)
      = pmw3610_report_data ⟨false, false, false, 10, false, 0, 1⟩
        ⟨true, false, 0, 0, 0, 100⟩ 20 (.ok ⟨1, 2, 0, 0, 0⟩) :=
  (C5_stale_purge ⟨false, false, false, 10, false, 0, 1⟩ ⟨true, false, 5, 7, 0, 100⟩
    20 0 ⟨3, 3, 0, 0, 0⟩ ⟨1, 2, 0, 0, 0⟩ (by decide) rfl (by decide)).1

/-- C6: in an invocation that reaches emission (no interval gating
here), the candidates are the accumulators clamped to the signed
16-bit range: when both are zero nothing is emitted and the
accumulators keep the summed value, otherwise both accumulators reset
to zero and an X event is emitted exactly when rx is nonzero (its sync
flag signals completion exactly when ry is zero), followed by a Y event
exactly when ry is nonzero (sync, i.e. completion). -/
theorem C6_emission (st : ReportState) (b : Burst) (now : Int) (xc yc : Nat)
    (hready : st.ready = true) :
    ((int16clamp (st.dx + decode_x b) = 0 ∧ int16clamp (st.dy + decode_y b) = 0) →
      (pmw3610_report_data ⟨false, false, false, 0, false, xc, yc⟩ st now (.ok b)).events = []
      ∧ (pmw3610_report_data ⟨false, false, false, 0, false, xc, yc⟩ st now (.ok b)).st.dx
          = st.dx + decode_x b
      ∧ (pmw3610_report_data ⟨false, false, false, 0, false, xc, yc⟩ st now (.ok b)).st.dy
          = st.dy + decode_y b)
    ∧ (¬(int16clamp (st.dx + decode_x b) = 0 ∧ int16clamp (st.dy + decode_y b) = 0) →
      (pmw3610_report_data ⟨false, false, false, 0, false, xc, yc⟩ st now (.ok b)).st.dx = 0
      ∧ (pmw3610_report_data ⟨false, false, false, 0, false, xc, yc⟩ st now (.ok b)).st.dy = 0
      ∧ (pmw3610_report_data ⟨false, false, false, 0, false, xc, yc⟩ st now (.ok b)).events =
          (if int16clamp (st.dx + decode_x b) ≠ 0 then
            [⟨xc, int16clamp (st.dx + decode_x b),
              decide (int16clamp (st.dy + decode_y b) = 0)⟩]
           else [])
          ++ (if int16clamp (st.dy + decode_y b) ≠ 0 then
            [⟨yc, int16clamp (st.dy + decode_y b), true⟩] else [])) := by
  constructor
  · rintro ⟨hx0, hy0⟩
    refine ⟨?_, ?_, ?_⟩ <;>
      simp [pmw3610_report_data, hready, pmw3610_transform, hx0, hy0]
  · intro hne
    have hor : int16clamp (st.dx + decode_x b) ≠ 0 ∨ int16clamp (st.dy + decode_y b) ≠ 0 := by
      tauto
    refine ⟨?_, ?_, ?_⟩ <;>
      simp [pmw3610_report_data, hready, pmw3610_transform, hor]

/-- Witness for C6_emission: accumulated dx = 40000 with a zero-delta
sample emits a single X event clamped to 32767 with the completion
flag set. -/
theorem C6_emission_witness :
    (pmw3610_report_data ⟨false, false, false, 0, false, 0, 1⟩
        ⟨true, false, 40000, 0, 0, 0⟩ 0 (.ok ⟨0, 0, 0, 0, 0⟩)).events =
      [⟨0, 32767, true⟩] := by
  have h := (C6_emission ⟨true, false, 40000, 0, 0, 0⟩ ⟨0, 0, 0, 0, 0⟩ 0 0 1 rfl).2
    (by decide)
  exact h.2.2.trans (by decide)

lemma smart_step_dead (cfg : ReportConfig) (flag : Bool) :
    smart_step cfg flag 45 = (flag, []) := by
  by_cases hs : cfg.smart_algorithm <;> simp [smart_step, hs]

lemma smart_step_once (cfg : ReportConfig) (flag : Bool) (sh : Nat) :
    (smart_step cfg flag sh).2.length ≤ 1 := by
  simp only [smart_step]
  split_ifs <;> simp_all <;> omega

lemma report_smart_obs (cfg : ReportConfig) (st : ReportState) (now : Int) (b : Burst)
    (hready : st.ready = true) :
    (pmw3610_report_data cfg st now (.ok b)).st.sw_smart_flag
      = (smart_step cfg st.sw_smart_flag (shutter_val b)).1
    ∧ (pmw3610_report_data cfg st now (.ok b)).regWrites
      = (smart_step cfg st.sw_smart_flag (shutter_val b)).2 := by
  constructor <;>
  · simp only [pmw3610_report_data, hready]
    rw [if_neg (by simp)]
    split_ifs <;> rfl

/-- C10: the smart-exposure hysteresis latch changes at most once per
sample (at most one write to the auxiliary register per invocation),
and has a dead point at the threshold: a shutter value of exactly 45
fires neither branch, leaving the flag and the auxiliary register
untouched whatever the current mode. -/
theorem C10_smart_dead_point (cfg : ReportConfig) (st : ReportState) (now : Int)
    (b : Burst) (hready : st.ready = true) (h45 : shutter_val b = 45) :
    ((pmw3610_report_data cfg st now (.ok b)).st.sw_smart_flag = st.sw_smart_flag
      ∧ (pmw3610_report_data cfg st now (.ok b)).regWrites = [])
    ∧ ∀ b2 : Burst, ((pmw3610_report_data cfg st now (.ok b2)).regWrites).length ≤ 1 := by
  obtain ⟨hf, hw⟩ := report_smart_obs cfg st now b hready
  refine ⟨⟨?_, ?_⟩, ?_⟩
  · rw [hf, h45, smart_step_dead]
  · rw [hw, h45, smart_step_dead]
  · intro b2
    rw [(report_smart_obs cfg st now b2 hready).2]
    exact smart_step_once cfg st.sw_smart_flag (shutter_val b2)

/-- Witness for C10_smart_dead_point: smart mode engaged, shutter
exactly 45: flag stays true and no auxiliary write is issued. -/
theorem C10_smart_dead_point_witness :
    (pmw3610_report_data ⟨false, false, false, 0, true, 0, 1⟩ ⟨true, true, 0, 0, 0, 0⟩ 0
        (.ok ⟨0, 0, 0, 0, 45⟩)).st.sw_smart_flag = true
    ∧ (pmw3610_report_data ⟨false, false, false, 0, true, 0, 1⟩ ⟨true, true, 0, 0, 0, 0⟩ 0
        (.ok ⟨0, 0, 0, 0, 45⟩)).regWrites = [] :=
  (C10_smart_dead_point ⟨false, false, false, 0, true, 0, 1⟩ ⟨true, true, 0, 0, 0, 0⟩ 0
    ⟨0, 0, 0, 0, 45⟩ rfl (by decide)).1
